import Mathlib

/-!
Shallow embedding of the two BigQuery sample scripts
(bigquery/cloud-client/async_query_params.py and
bigquery/cloud-client/sync_query_params.py).

The external service client (google.cloud.bigquery) is modelled as a stub
collaborator supplied by the caller: a function giving the job snapshot seen
by each successive status check, and a function answering each page-fetch
request.  The local logic of the scripts - request construction, the poll
loop of wait_for_job, the pagination loop of print_results - is translated
faithfully, producing a trace of collaborator calls and emitted rows.
Loops that are unbounded in the source (while True) take a fuel argument;
running out of fuel returns none, modelling nontermination.
-/

namespace BQSamples

/-- Scalar parameter values passed to ScalarQueryParameter in the scripts:
either a string (the corpus) or an integer (the minimum word count). -/
inductive QVal
  | s (v : String)
  | i (v : Int)
deriving DecidableEq, Repr

/-- Model of bigquery.ScalarQueryParameter(name, type, value): an optional
name (None for positional parameters), a type tag such as STRING or INT64,
and the value. -/
structure ScalarQueryParameter where
  name : Option String
  type_ : String
  value : QVal
deriving DecidableEq, Repr

/-- Job lifecycle states reported by the collaborator (job.state). -/
inductive JobState
  | pending
  | running
  | done
deriving DecidableEq, Repr

/-- One snapshot of a job as read after job.reload(): the state string, the
error_result attribute the poll loop tests, and the errors attribute whose
value is raised on failure. -/
structure JobSnapshot (E : Type) where
  state : JobState
  error_result : Option E
  errors : List E
deriving DecidableEq, Repr

/-- Observable collaborator calls and outputs of a script run, in order:
a query submission (with job id for the async path, the SQL text, the
parameter list, and the standard-SQL flag), a status-check request
(job.reload), a fixed-interval wait (time.sleep(1)), a page-fetch request
(fetch_data), and a printed result row. -/
inductive Event (R : Type)
  | submit (jobId : Option String) (sql : String)
      (params : List ScalarQueryParameter) (useStandardSql : Bool)
  | check
  | sleep
  | fetch
  | emit (r : R)
deriving DecidableEq, Repr

/-- True exactly on submission events. -/
def isSubmit {R : Type} : Event R → Bool
  | .submit _ _ _ _ => true
  | _ => false

/-- True exactly on status-check events. -/
def isCheck {R : Type} : Event R → Bool
  | .check => true
  | _ => false

/-- True exactly on interval-wait events. -/
def isSleep {R : Type} : Event R → Bool
  | .sleep => true
  | _ => false

/-- True exactly on page-fetch events. -/
def isFetch {R : Type} : Event R → Bool
  | .fetch => true
  | _ => false

/-- True exactly on row-emission events. -/
def isEmit {R : Type} : Event R → Bool
  | .emit _ => true
  | _ => false

/-- The rows printed during a trace, in order of emission. -/
def emittedRows {R : Type} : List (Event R) → List R
  | [] => []
  | .emit r :: tr => r :: emittedRows tr
  | _ :: tr => emittedRows tr

/-- Embedding of wait_for_job (async_query_params.py lines 33-40): each
iteration reloads the job (one status check), returns on state DONE -
raising job.errors when job.error_result is set - and otherwise sleeps one
interval and repeats.  The stub gives the snapshot seen by the i-th reload;
the result is the trace of the loop together with the raised error payload
(none on success), or none when the fuel runs out. -/
def waitForJobT {R E : Type} (stub : Nat → JobSnapshot E) :
    Nat → Nat → Option (List (Event R) × Option (List E))
  | 0, _ => none
  | fuel + 1, i =>
    let s := stub i
    if s.state = JobState.done then
      if s.error_result.isSome then some ([Event.check], some s.errors)
      else some ([Event.check], none)
    else
      (waitForJobT stub fuel (i + 1)).map
        (fun p => (Event.check :: Event.sleep :: p.1, p.2))

/-- Embedding of print_results (async_query_params.py lines 43-56) and of
the identical pagination loop of sync_query_params.py lines 68-79: starting
from page_token = None, repeatedly call fetch_data(max_results = 10,
page_token), print every row of the returned page, and stop as soon as the
returned token is absent.  The result is the trace of fetches and emitted
rows, or none when the fuel runs out. -/
def printResultsT {R T : Type}
    (fetchData : Nat → Option T → List R × Nat × Option T) :
    Nat → Option T → Option (List (Event R))
  | 0, _ => none
  | fuel + 1, tok =>
    match fetchData 10 tok with
    | (rows, _totalRows, tok2) =>
      let evs := Event.fetch :: rows.map Event.emit
      match tok2 with
      | none => some evs
      | some t =>
        (printResultsT fetchData fuel (some t)).map (fun tr => evs ++ tr)

/-- The trace produced by a poll loop that sees n non-terminal snapshots
before the terminal one: n repetitions of check-then-sleep, then the final
check. -/
def pollTraceOf {R : Type} : Nat → List (Event R)
  | 0 => [Event.check]
  | n + 1 => Event.check :: Event.sleep :: pollTraceOf n

/-- The trace produced by paginating a sequence of pages: for each page in
order, one fetch followed by that page's rows in order. -/
def pageTraceOf {R : Type} : List (List R) → List (Event R)
  | [] => []
  | p :: ps => (Event.fetch :: p.map Event.emit) ++ pageTraceOf ps

/-- A run of responses the collaborator gives to the pagination loop:
FetchChain g t pages holds when, asked with token t, the collaborator
returns the pages in order, each non-final answer carrying the token the
loop passes to the next call, and the final answer carrying no token. -/
inductive FetchChain {R T : Type} (g : Option T → List R × Nat × Option T) :
    Option T → List (List R) → Prop
  | last (t : Option T) (rows : List R) (n : Nat) :
      g t = (rows, n, none) → FetchChain g t [rows]
  | step (t : Option T) (rows : List R) (n : Nat) (t2 : T)
      (rest : List (List R)) :
      g t = (rows, n, some t2) → FetchChain g (some t2) rest →
      FetchChain g t (rows :: rest)

/-- The positional-parameter SQL template of async_query_positional_params
(async_query_params.py lines 63-68); sync_query_params.py lines 34-39 use
the same template. -/
def positionalSql : String :=
  "SELECT word, word_count\n        FROM `bigquery-public-data.samples.shakespeare`\n        WHERE corpus = ?\n        AND word_count >= ?\n        ORDER BY word_count DESC;\n        "

/-- The named-parameter SQL template of async_query_named_params
(async_query_params.py lines 91-96) and of the second query of
sync_query_params.py lines 51-56. -/
def namedSql : String :=
  "SELECT word, word_count\n        FROM `bigquery-public-data.samples.shakespeare`\n        WHERE corpus = @corpus\n        AND word_count >= @min_word_count\n        ORDER BY word_count DESC;\n        "

/-- The positional parameter bindings the scripts construct: name None so
that positional (question-mark) placeholders are used. -/
def positionalParamList (corpus : String) (minWordCount : Int) :
    List ScalarQueryParameter :=
  [⟨none, "STRING", QVal.s corpus⟩, ⟨none, "INT64", QVal.i minWordCount⟩]

/-- The named parameter bindings the scripts construct for the
named-placeholder template. -/
def namedParamList (corpus : String) (minWordCount : Int) :
    List ScalarQueryParameter :=
  [⟨some "corpus", "STRING", QVal.s corpus⟩,
   ⟨some "min_word_count", "INT64", QVal.i minWordCount⟩]

/-- Collaborator stub for the async script: the job snapshot seen by each
successive status check, and the fetch_data responder for the result
pages. -/
structure AsyncStub (R E T : Type) where
  job : Nat → JobSnapshot E
  fetchData : Nat → Option T → List R × Nat × Option T

/-- Embedding of async_query_positional_params (async_query_params.py lines
59-84): build the positional-parameter query job (client-generated job id,
positional template, two positional bindings, use_legacy_sql = False),
begin it (one submission request), wait for it with wait_for_job, then
paginate its results with print_results.  Returns the full call trace and
the raised error payload (none on success), or none when a loop's fuel runs
out. -/
def asyncQueryPositionalParams {R E T : Type} (jobId corpus : String)
    (minWordCount : Int) (stub : AsyncStub R E T)
    (pollFuel pageFuel : Nat) :
    Option (List (Event R) × Option (List E)) :=
  let submitEv : Event R :=
    Event.submit (some jobId) positionalSql
      (positionalParamList corpus minWordCount) true
  match waitForJobT stub.job pollFuel 0 with
  | none => none
  | some (tr, some errs) => some (submitEv :: tr, some errs)
  | some (tr, none) =>
    match printResultsT stub.fetchData pageFuel none with
    | none => none
    | some ptr => some (submitEv :: (tr ++ ptr), none)

/-- Collaborator stub for the sync script: the fetch_data responder of the
first (positional) query's result handle, and that of the second (named)
query's result handle. -/
structure SyncStub (R T : Type) where
  fetchData1 : Nat → Option T → List R × Nat × Option T
  fetchData2 : Nat → Option T → List R × Nat × Option T

/-- Embedding of sync_query_params (sync_query_params.py lines 31-79): run
the positional-parameter query synchronously (first submission), rebind
query_results to a second, named-parameter synchronous query (second
submission), then paginate only that second handle; fetch_data is never
called on the first handle.  Returns the call trace, or none when the
pagination fuel runs out. -/
def syncQueryParams {R T : Type} (corpus : String) (minWordCount : Int)
    (stub : SyncStub R T) (pageFuel : Nat) : Option (List (Event R)) :=
  (printResultsT stub.fetchData2 pageFuel none).map (fun ptr =>
    Event.submit none positionalSql (positionalParamList corpus minWordCount)
        true
      :: Event.submit none namedSql (namedParamList corpus minWordCount) true
      :: ptr)

/-- Identifier characters of a named placeholder (the characters following
the at sign in names such as min_word_count). -/
def isIdentChar (c : Char) : Bool := c.isAlphanum || c = '_'

/-- Scanner for named placeholders: the accumulator holds the reversed
characters of the identifier currently being read after an at sign, or none
when outside one. -/
def namedPlaceholdersAux : Option (List Char) → List Char → List String
  | none, [] => []
  | some cs, [] => [cs.reverse.asString]
  | none, c :: rest =>
    namedPlaceholdersAux (if c = '@' then some [] else none) rest
  | some cs, c :: rest =>
    if isIdentChar c then namedPlaceholdersAux (some (c :: cs)) rest
    else
      cs.reverse.asString
        :: namedPlaceholdersAux (if c = '@' then some [] else none) rest

/-- The named placeholders of a SQL template, in order of occurrence: each
at sign starts one, made of the identifier characters that follow it. -/
def namedPlaceholders (l : List Char) : List String :=
  namedPlaceholdersAux none l

/-- The number of positional (question-mark) placeholders in a SQL
template. -/
def countPositional (sql : String) : Nat := sql.toList.count '?'

/-- Modelled from the spec: the placeholder-style and binding validation of
the QueryRunner contract, which is not code under src/ (the scripts
delegate it to the external client library).  A template must use
exclusively positional or exclusively named placeholders; in positional
style the binding count equals the question-mark count and every binding is
nameless; in named style every placeholder has exactly one binding of the
same name and every binding name occurs in the template. -/
def validStyle (sql : String) (params : List ScalarQueryParameter) : Bool :=
  let q := countPositional sql
  let named := namedPlaceholders sql.toList
  if 0 < q && !named.isEmpty then false
  else if 0 < q then
    params.length == q && params.all (fun p => p.name.isNone)
  else if !named.isEmpty then
    named.all (fun n => params.countP (fun p => p.name == some n) == 1) &&
      params.all (fun p =>
        match p.name with
        | some n => named.contains n
        | none => false)
  else params.isEmpty

/-- Errors of a checked run: the local input-validation error of the
QueryRunner contract, or a failed job's error payload. -/
inductive RunError (E : Type)
  | invalidParameterStyle
  | jobFailed (errs : List E)
deriving DecidableEq, Repr

/-- Modelled from the spec: the ASYNC run operation of the QueryRunner with
the input validation that precedes submission (the validation itself is not
code under src/).  An invalid template/binding pair is rejected locally
with an empty trace - no submission request - and otherwise the run is the
source's submit, poll and paginate sequence. -/
def runAsyncChecked {R E T : Type} (jobId sql : String)
    (params : List ScalarQueryParameter) (stub : AsyncStub R E T)
    (pollFuel pageFuel : Nat) :
    Option (List (Event R) × Option (RunError E)) :=
  if validStyle sql params then
    (match waitForJobT stub.job pollFuel 0 with
     | none => none
     | some (tr, some errs) =>
       some (Event.submit (some jobId) sql params true :: tr,
         some (RunError.jobFailed errs))
     | some (tr, none) =>
       match printResultsT stub.fetchData pageFuel none with
       | none => none
       | some ptr =>
         some (Event.submit (some jobId) sql params true :: (tr ++ ptr),
           none))
  else some ([], some RunError.invalidParameterStyle)

/-- Modelled from the spec: the SYNC run operation of the QueryRunner with
the input validation that precedes submission (the validation itself is not
code under src/).  An invalid template/binding pair is rejected locally
with an empty trace - no submission request - and otherwise the run is one
synchronous submission followed by the source's pagination loop. -/
def runSyncChecked {R E T : Type} (sql : String)
    (params : List ScalarQueryParameter)
    (fetchData : Nat → Option T → List R × Nat × Option T)
    (pageFuel : Nat) :
    Option (List (Event R) × Option (RunError E)) :=
  if validStyle sql params then
    (printResultsT fetchData pageFuel none).map
      (fun ptr => (Event.submit none sql params true :: ptr, none))
  else some ([], some RunError.invalidParameterStyle)

/-- A job stub that reports PENDING on the first two status checks and a
clean DONE afterwards. -/
def pendingStub : Nat → JobSnapshot String := fun i =>
  if i < 2 then ⟨JobState.pending, none, []⟩ else ⟨JobState.done, none, []⟩

/-- A job stub that reports RUNNING once and then DONE carrying an error
payload. -/
def failingStub : Nat → JobSnapshot String := fun i =>
  if i < 1 then ⟨JobState.running, none, []⟩
  else ⟨JobState.done, some "accessDenied", ["accessDenied"]⟩

/-- A fetch_data stub answering two pages: rows 1 and 2 with a continuation
token, then row 3 with no token. -/
def pagesFetch : Nat → Option Nat → List Nat × Nat × Option Nat :=
  fun _ tok =>
    match tok with
    | none => ([1, 2], 3, some 1)
    | some _ => ([3], 3, none)

/-- Async collaborator stub whose job fails terminally. -/
def failingAsyncStub : AsyncStub Nat String Nat := ⟨failingStub, pagesFetch⟩

/-- Async collaborator stub whose job succeeds after two pending checks. -/
def successAsyncStub : AsyncStub Nat String Nat := ⟨pendingStub, pagesFetch⟩

/-- A fetch_data stub answering a single empty final page. -/
def emptyFetch : Nat → Option Nat → List Nat × Nat × Option Nat :=
  fun _ _ => ([], 0, none)

/-- Sync collaborator stub whose named-parameter query has no rows. -/
def trivialSyncStub : SyncStub Nat Nat := ⟨emptyFetch, emptyFetch⟩

/-- Sync collaborator stub for the end-to-end scenario: the second query's
handle returns a page of ten rows and then a final page of three. -/
def scenarioFetch : Nat → Option Nat → List Nat × Nat × Option Nat :=
  fun _ tok =>
    match tok with
    | none => ([0, 1, 2, 3, 4, 5, 6, 7, 8, 9], 13, some 1)
    | some _ => ([10, 11, 12], 13, none)

/-- Sync collaborator stub for the end-to-end scenario. -/
def scenarioSyncStub : SyncStub Nat Nat := ⟨emptyFetch, scenarioFetch⟩

/-- A template that mixes a positional and a named placeholder. -/
def mixedSql : String :=
  "SELECT word FROM t WHERE corpus = ? AND word_count >= @min_word_count"

theorem emittedRows_append {R : Type} (a b : List (Event R)) :
    emittedRows (a ++ b) = emittedRows a ++ emittedRows b := by
  induction a with
  | nil => simp [emittedRows]
  | cons e tr ih => cases e <;> simp [emittedRows, ih]

theorem emittedRows_map_emit {R : Type} (p : List R) :
    emittedRows (p.map Event.emit) = p := by
  induction p with
  | nil => simp [emittedRows]
  | cons r p ih => simp [emittedRows, ih]

theorem emittedRows_pageTraceOf {R : Type} (pages : List (List R)) :
    emittedRows (pageTraceOf pages) = pages.flatten := by
  induction pages with
  | nil => simp [pageTraceOf, emittedRows]
  | cons p ps ih =>
    simp [pageTraceOf, emittedRows_append, emittedRows, emittedRows_map_emit,
      ih]

theorem countP_check_pollTraceOf {R : Type} (n : Nat) :
    (pollTraceOf n : List (Event R)).countP isCheck = n + 1 := by
  induction n with
  | zero => simp [pollTraceOf, List.countP_cons, isCheck]
  | succ n ih =>
    simp [pollTraceOf, List.countP_cons, isCheck, isSleep] at ih ⊢
    omega

theorem countP_sleep_pollTraceOf {R : Type} (n : Nat) :
    (pollTraceOf n : List (Event R)).countP isSleep = n := by
  induction n with
  | zero => simp [pollTraceOf, List.countP_cons, isSleep]
  | succ n ih =>
    simp [pollTraceOf, List.countP_cons, isCheck, isSleep] at ih ⊢
    omega

theorem countP_fetch_pollTraceOf {R : Type} (n : Nat) :
    (pollTraceOf n : List (Event R)).countP isFetch = 0 := by
  induction n with
  | zero => simp [pollTraceOf, List.countP_cons, isFetch]
  | succ n ih => simp [pollTraceOf, List.countP_cons, isFetch, ih]

theorem countP_submit_pollTraceOf {R : Type} (n : Nat) :
    (pollTraceOf n : List (Event R)).countP isSubmit = 0 := by
  induction n with
  | zero => simp [pollTraceOf, List.countP_cons, isSubmit]
  | succ n ih => simp [pollTraceOf, List.countP_cons, isSubmit, ih]

theorem countP_submit_map_emit {R : Type} (p : List R) :
    (p.map Event.emit).countP isSubmit = 0 := by
  induction p with
  | nil => simp
  | cons r p ih => simp [List.countP_cons, isSubmit, ih]

theorem countP_submit_pageTraceOf {R : Type} (pages : List (List R)) :
    (pageTraceOf pages).countP isSubmit = 0 := by
  induction pages with
  | nil => simp [pageTraceOf]
  | cons p ps ih =>
    simp [pageTraceOf, List.countP_append, List.countP_cons, isSubmit, ih,
      countP_submit_map_emit]

theorem mem_pollTraceOf {R : Type} (n : Nat) (e : Event R)
    (he : e ∈ (pollTraceOf n : List (Event R))) :
    isCheck e = true ∨ isSleep e = true := by
  induction n with
  | zero =>
    simp [pollTraceOf] at he
    subst he
    simp [isCheck]
  | succ n ih =>
    simp only [pollTraceOf, List.mem_cons] at he
    rcases he with h | h | h
    · subst h; simp [isCheck]
    · subst h; simp [isSleep]
    · exact ih h

theorem mem_pageTraceOf {R : Type} (pages : List (List R)) (e : Event R)
    (he : e ∈ pageTraceOf pages) : isFetch e = true ∨ isEmit e = true := by
  induction pages with
  | nil => simp [pageTraceOf] at he
  | cons p ps ih =>
    simp only [pageTraceOf, List.mem_append, List.mem_cons] at he
    rcases he with (h | h) | h
    · subst h; simp [isFetch]
    · rcases List.mem_map.mp h with ⟨r, _, rfl⟩
      simp [isEmit]
    · exact ih h

theorem waitForJobT_eq (R : Type) {E : Type} (stub : Nat → JobSnapshot E) (n : Nat) :
    ∀ k fuel : Nat, (∀ i, i < n → (stub (k + i)).state ≠ JobState.done) →
      (stub (k + n)).state = JobState.done → n + 1 ≤ fuel →
      waitForJobT stub fuel k =
        (some (pollTraceOf n,
            if (stub (k + n)).error_result.isSome then some (stub (k + n)).errors
            else none) :
          Option (List (Event R) × Option (List E))) := by
  induction n with
  | zero =>
    intro k fuel _ h2 hf
    match fuel, hf with
    | fuel + 1, _ =>
      simp only [Nat.add_zero] at h2
      simp only [waitForJobT, h2, if_true, pollTraceOf, Nat.add_zero]
      split <;> simp_all
  | succ n ih =>
    intro k fuel h1 h2 hf
    match fuel, hf with
    | fuel + 1, hf =>
      have hne : (stub k).state ≠ JobState.done := by
        have := h1 0 (Nat.succ_pos n)
        simpa using this
      have hrec := ih (k + 1) fuel
        (fun i hi => by
          have := h1 (i + 1) (Nat.succ_lt_succ hi)
          simpa [Nat.add_assoc, Nat.add_comm 1 i] using this)
        (by
          have : k + 1 + n = k + (n + 1) := by omega
          rw [this]; exact h2)
        (Nat.lt_succ_iff.mp hf)
      have hidx : k + 1 + n = k + (n + 1) := by omega
      rw [hidx] at hrec
      simp [waitForJobT, hne, hrec, pollTraceOf]

theorem printResultsT_chain {R T : Type}
    (fetchData : Nat → Option T → List R × Nat × Option T)
    (t : Option T) (pages : List (List R))
    (h : FetchChain (fetchData 10) t pages) :
    ∀ fuel : Nat, pages.length ≤ fuel →
      printResultsT fetchData fuel t = some (pageTraceOf pages) := by
  induction h with
  | last t rows n heq =>
    intro fuel hf
    match fuel, hf with
    | fuel + 1, _ => simp [printResultsT, heq, pageTraceOf]
  | step t rows n t2 rest heq _ ih =>
    intro fuel hf
    match fuel, hf with
    | fuel + 1, hf =>
      have hrec := ih fuel (by simpa using Nat.lt_succ_iff.mp hf)
      simp [printResultsT, heq, hrec, pageTraceOf]

theorem asyncQueryPositionalParams_ok {R E T : Type} (jobId corpus : String)
    (minWordCount : Int) (stub : AsyncStub R E T)
    (n pollFuel pageFuel : Nat) (pages : List (List R))
    (h1 : ∀ i, i < n → (stub.job i).state ≠ JobState.done)
    (h2 : (stub.job n).state = JobState.done)
    (hok : (stub.job n).error_result = none)
    (hchain : FetchChain (stub.fetchData 10) none pages)
    (hpoll : n + 1 ≤ pollFuel) (hpage : pages.length ≤ pageFuel) :
    asyncQueryPositionalParams jobId corpus minWordCount stub pollFuel
        pageFuel =
      some (Event.submit (some jobId) positionalSql
          (positionalParamList corpus minWordCount) true
        :: (pollTraceOf n ++ pageTraceOf pages), none) := by
  have h1' : ∀ i, i < n → (stub.job (0 + i)).state ≠ JobState.done := by
    simpa using h1
  have h2' : (stub.job (0 + n)).state = JobState.done := by simpa using h2
  have hw := waitForJobT_eq R stub.job n 0 pollFuel h1' h2' hpoll
  simp only [Nat.zero_add] at hw
  have hp := printResultsT_chain stub.fetchData none pages hchain pageFuel
    hpage
  simp [asyncQueryPositionalParams, hw, hok, hp]

theorem asyncQueryPositionalParams_err {R E T : Type} (jobId corpus : String)
    (minWordCount : Int) (stub : AsyncStub R E T)
    (n pollFuel pageFuel : Nat)
    (h1 : ∀ i, i < n → (stub.job i).state ≠ JobState.done)
    (h2 : (stub.job n).state = JobState.done)
    (herr : (stub.job n).error_result.isSome = true)
    (hpoll : n + 1 ≤ pollFuel) :
    asyncQueryPositionalParams jobId corpus minWordCount stub pollFuel
        pageFuel =
      some (Event.submit (some jobId) positionalSql
          (positionalParamList corpus minWordCount) true :: pollTraceOf n,
        some (stub.job n).errors) := by
  have h1' : ∀ i, i < n → (stub.job (0 + i)).state ≠ JobState.done := by
    simpa using h1
  have h2' : (stub.job (0 + n)).state = JobState.done := by simpa using h2
  have hw := waitForJobT_eq R stub.job n 0 pollFuel h1' h2' hpoll
  simp only [Nat.zero_add] at hw
  simp [asyncQueryPositionalParams, hw, herr]

theorem syncQueryParams_trace {R T : Type} (corpus : String)
    (minWordCount : Int) (stub : SyncStub R T) (pages : List (List R))
    (pageFuel : Nat) (hchain : FetchChain (stub.fetchData2 10) none pages)
    (hf : pages.length ≤ pageFuel) :
    syncQueryParams corpus minWordCount stub pageFuel =
      some (Event.submit none positionalSql
          (positionalParamList corpus minWordCount) true
        :: Event.submit none namedSql (namedParamList corpus minWordCount)
            true
        :: pageTraceOf pages) := by
  simp [syncQueryParams,
    printResultsT_chain stub.fetchData2 none pages hchain pageFuel hf]

/-- C1: an invocation whose template placeholder style and parameter
bindings are mismatched (mixed question-mark and at-name styles, or binding
count/names not matching the placeholders, i.e. validStyle fails) is
rejected locally with InvalidParameterStyle in both ASYNC and SYNC mode,
with an empty trace, so zero submission requests reach the collaborator. -/
theorem C1_invalid_style_no_submission {R E T : Type} (jobId sql : String)
    (params : List ScalarQueryParameter) (stub : AsyncStub R E T)
    (fetchData : Nat → Option T → List R × Nat × Option T)
    (pollFuel pageFuel syncPageFuel : Nat)
    (hbad : validStyle sql params = false) :
    runAsyncChecked jobId sql params stub pollFuel pageFuel =
        some ([], some RunError.invalidParameterStyle) ∧
      runSyncChecked sql params fetchData syncPageFuel =
        (some ([], some RunError.invalidParameterStyle) :
          Option (List (Event R) × Option (RunError E))) ∧
      ([] : List (Event R)).countP isSubmit = 0 := by
  refine ⟨?_, ?_, rfl⟩ <;> simp [runAsyncChecked, runSyncChecked, hbad]

/-- Witness for C1: the mixed-style template with the scripts' positional
bindings fails validation and both checked runs reject it locally with an
empty trace. -/
theorem C1_witness :
    validStyle mixedSql (positionalParamList "romeoandjuliet" 100) = false ∧
      runAsyncChecked "job-1" mixedSql
          (positionalParamList "romeoandjuliet" 100) failingAsyncStub 1 1 =
        some ([], some RunError.invalidParameterStyle) ∧
      runSyncChecked mixedSql (positionalParamList "romeoandjuliet" 100)
          emptyFetch 1 =
        (some ([], some RunError.invalidParameterStyle) :
          Option (List (Event Nat) × Option (RunError String))) ∧
      ([] : List (Event Nat)).countP isSubmit = 0 := by
  have h := C1_invalid_style_no_submission "job-1" mixedSql
    (positionalParamList "romeoandjuliet" 100) failingAsyncStub emptyFetch
    1 1 1 (by decide)
  exact ⟨by decide, h.1, h.2.1, h.2.2⟩

/-- C2: when the job's terminal DONE snapshot carries a non-empty error
payload, the async run fails carrying exactly the collaborator's errors
attribute, and its trace contains zero page-fetch requests. -/
theorem C2_job_failure_no_page_fetch {R E T : Type} (jobId corpus : String)
    (minWordCount : Int) (stub : AsyncStub R E T)
    (n pollFuel pageFuel : Nat)
    (h1 : ∀ i, i < n → (stub.job i).state ≠ JobState.done)
    (h2 : (stub.job n).state = JobState.done)
    (herr : (stub.job n).error_result.isSome = true)
    (hne : (stub.job n).errors ≠ [])
    (hpoll : n + 1 ≤ pollFuel) :
    asyncQueryPositionalParams jobId corpus minWordCount stub pollFuel
        pageFuel =
      some (Event.submit (some jobId) positionalSql
          (positionalParamList corpus minWordCount) true :: pollTraceOf n,
        some (stub.job n).errors) ∧
      (Event.submit (some jobId) positionalSql
          (positionalParamList corpus minWordCount) true
        :: (pollTraceOf n : List (Event R))).countP isFetch = 0 := by
  refine ⟨asyncQueryPositionalParams_err jobId corpus minWordCount stub n
    pollFuel pageFuel h1 h2 herr hpoll, ?_⟩
  simp [List.countP_cons, isFetch, countP_fetch_pollTraceOf]

/-- Witness for C2: a stub running once and then failing terminally makes
the async run raise the payload accessDenied after one check-sleep-check
poll, with no page fetch. -/
theorem C2_witness :
    asyncQueryPositionalParams "job-1" "romeoandjuliet" 100 failingAsyncStub
        2 1 =
      some (Event.submit (some "job-1") positionalSql
          (positionalParamList "romeoandjuliet" 100) true :: pollTraceOf 1,
        some ["accessDenied"]) ∧
      (Event.submit (some "job-1") positionalSql
          (positionalParamList "romeoandjuliet" 100) true
        :: (pollTraceOf 1 : List (Event Nat))).countP isFetch = 0 := by
  have h := C2_job_failure_no_page_fetch "job-1" "romeoandjuliet" 100
    failingAsyncStub 1 2 1 (by decide) (by decide) (by decide) (by decide)
    (by decide)
  exact h

/-- C3 as stated is false: the synchronous script's single invocation
issues two submission requests (one for the positional-parameter query, one
for the named-parameter query), not exactly one; witnessed at a concrete
stub whose final page is empty. -/
theorem C3_counterexample :
    (syncQueryParams "romeoandjuliet" 100 trivialSyncStub 1).map
        (List.countP isSubmit) = some 2 ∧
      (2 : Nat) ≠ 1 := by
  exact ⟨rfl, by decide⟩

/-- C3 amended: each single query execution issues exactly one submission
request: the async invocation's trace carries exactly one submission, while
the sync script invocation, which executes two queries in sequence,
carries exactly two. -/
theorem C3_submission_counts {R E T : Type} (jobId corpus : String)
    (minWordCount : Int) (stub : AsyncStub R E T)
    (n pollFuel pageFuel : Nat) (pages : List (List R))
    (h1 : ∀ i, i < n → (stub.job i).state ≠ JobState.done)
    (h2 : (stub.job n).state = JobState.done)
    (hok : (stub.job n).error_result = none)
    (hchain : FetchChain (stub.fetchData 10) none pages)
    (hpoll : n + 1 ≤ pollFuel) (hpage : pages.length ≤ pageFuel)
    (sstub : SyncStub R T) (pages2 : List (List R)) (syncFuel : Nat)
    (hchain2 : FetchChain (sstub.fetchData2 10) none pages2)
    (hsf : pages2.length ≤ syncFuel) :
    (asyncQueryPositionalParams jobId corpus minWordCount stub pollFuel
          pageFuel).map (fun p => p.1.countP isSubmit) = some 1 ∧
      (syncQueryParams corpus minWordCount sstub syncFuel).map
        (List.countP isSubmit) = some 2 := by
  constructor
  · rw [asyncQueryPositionalParams_ok jobId corpus minWordCount stub n
      pollFuel pageFuel pages h1 h2 hok hchain hpoll hpage]
    simp [List.countP_cons, List.countP_append, isSubmit,
      countP_submit_pollTraceOf, countP_submit_pageTraceOf]
  · rw [syncQueryParams_trace corpus minWordCount sstub pages2 syncFuel
      hchain2 hsf]
    simp [List.countP_cons, isSubmit, countP_submit_pageTraceOf]

/-- Witness for C3's amended statement: the async stub succeeding after two
pending checks yields one submission; the sync stub yields two. -/
theorem C3_witness :
    (asyncQueryPositionalParams "job-1" "romeoandjuliet" 100
          successAsyncStub 3 2).map (fun p => p.1.countP isSubmit) =
        some 1 ∧
      (syncQueryParams "romeoandjuliet" 100 trivialSyncStub 1).map
        (List.countP isSubmit) = some 2 := by
  have h := C3_submission_counts "job-1" "romeoandjuliet" 100
    successAsyncStub 2 3 2 [[1, 2], [3]] (by decide) (by decide) (by decide)
    (FetchChain.step none [1, 2] 3 1 [[3]] rfl
      (FetchChain.last (some 1) [3] 3 rfl))
    (by decide) (by decide) trivialSyncStub [[]] 1
    (FetchChain.last none [] 0 rfl) (by decide)
  exact h

/-- C4: when the collaborator reports a non-terminal state on the first n
status checks and a clean DONE on check n + 1, the poll loop completes
successfully with a trace of exactly n + 1 status checks and n interval
waits. -/
theorem C4_poll_loop_counts {R E : Type} (stub : Nat → JobSnapshot E)
    (n fuel : Nat)
    (h1 : ∀ i, i < n → (stub i).state ≠ JobState.done)
    (h2 : (stub n).state = JobState.done)
    (hok : (stub n).error_result = none)
    (hf : n + 1 ≤ fuel) :
    waitForJobT stub fuel 0 =
        (some (pollTraceOf n, none) :
          Option (List (Event R) × Option (List E))) ∧
      (pollTraceOf n : List (Event R)).countP isCheck = n + 1 ∧
      (pollTraceOf n : List (Event R)).countP isSleep = n := by
  refine ⟨?_, countP_check_pollTraceOf n, countP_sleep_pollTraceOf n⟩
  have h1' : ∀ i, i < n → (stub (0 + i)).state ≠ JobState.done := by
    simpa using h1
  have h2' : (stub (0 + n)).state = JobState.done := by simpa using h2
  have hw := waitForJobT_eq R stub n 0 fuel h1' h2' hf
  simp only [Nat.zero_add] at hw
  rw [hw, hok]
  simp

/-- Witness for C4: two pending snapshots then a clean DONE give three
checks and two sleeps. -/
theorem C4_witness :
    waitForJobT pendingStub 3 0 =
        (some (pollTraceOf 2, none) :
          Option (List (Event Nat) × Option (List String))) ∧
      (pollTraceOf 2 : List (Event Nat)).countP isCheck = 3 ∧
      (pollTraceOf 2 : List (Event Nat)).countP isSleep = 2 := by
  exact C4_poll_loop_counts pendingStub 2 3 (by decide) (by decide)
    (by decide) (by decide)

/-- C5: for any collaborator page sequence whose continuation tokens end in
an absent token, the rows emitted by the pagination loop are exactly the
concatenation of all pages in order - the full row sequence of one
unbounded call - with no duplicated and no dropped rows. -/
theorem C5_pagination_complete {R T : Type}
    (fetchData : Nat → Option T → List R × Nat × Option T)
    (pages : List (List R)) (fuel : Nat)
    (hchain : FetchChain (fetchData 10) none pages)
    (hf : pages.length ≤ fuel) :
    (printResultsT fetchData fuel none).map emittedRows =
      some pages.flatten := by
  rw [printResultsT_chain fetchData none pages hchain fuel hf]
  simp [emittedRows_pageTraceOf]

/-- Witness for C5: the two-page stub emits rows 1, 2, 3 - the
concatenation of its pages. -/
theorem C5_witness :
    (printResultsT pagesFetch 2 none).map emittedRows =
      some [1, 2, 3] := by
  have h := C5_pagination_complete pagesFetch [[1, 2], [3]] 2
    (FetchChain.step none [1, 2] 3 1 [[3]] rfl
      (FetchChain.last (some 1) [3] 3 rfl))
    (by decide)
  exact h

/-- C6: the SYNC-mode invocation with the positional template and bindings
STRING romeoandjuliet and INT64 100, against a stub returning pages of ten
and three rows (the second page's token absent), emits exactly thirteen
rows in the stub's order and terminates. -/
theorem C6_end_to_end_scenario :
    (syncQueryParams "romeoandjuliet" 100 scenarioSyncStub 2).map
        emittedRows =
      some [0, 1, 2, 3, 4, 5, 6, 7, 8, 9, 10, 11, 12] ∧
      ([0, 1, 2, 3, 4, 5, 6, 7, 8, 9, 10, 11, 12] : List Nat).length =
        13 := by
  exact ⟨rfl, rfl⟩

/-- C7: in an async run the trace is exactly one submission, then the poll
phase - status checks and waits only - then the pagination phase - fetches
and emissions only, one fetch per page followed by that page's rows in the
collaborator's token order. -/
theorem C7_async_ordering {R E T : Type} (jobId corpus : String)
    (minWordCount : Int) (stub : AsyncStub R E T)
    (n pollFuel pageFuel : Nat) (pages : List (List R))
    (h1 : ∀ i, i < n → (stub.job i).state ≠ JobState.done)
    (h2 : (stub.job n).state = JobState.done)
    (hok : (stub.job n).error_result = none)
    (hchain : FetchChain (stub.fetchData 10) none pages)
    (hpoll : n + 1 ≤ pollFuel) (hpage : pages.length ≤ pageFuel) :
    asyncQueryPositionalParams jobId corpus minWordCount stub pollFuel
        pageFuel =
      some (Event.submit (some jobId) positionalSql
          (positionalParamList corpus minWordCount) true
        :: (pollTraceOf n ++ pageTraceOf pages), none) ∧
      (∀ e ∈ (pollTraceOf n : List (Event R)),
        isCheck e = true ∨ isSleep e = true) ∧
      (∀ e ∈ pageTraceOf pages, isFetch e = true ∨ isEmit e = true) ∧
      emittedRows (pageTraceOf pages) = pages.flatten := by
  exact ⟨asyncQueryPositionalParams_ok jobId corpus minWordCount stub n
      pollFuel pageFuel pages h1 h2 hok hchain hpoll hpage,
    mem_pollTraceOf n, mem_pageTraceOf pages, emittedRows_pageTraceOf pages⟩

/-- Witness for C7: the succeeding async stub produces the submission, two
check-sleep rounds, the final check, then the two page blocks. -/
theorem C7_witness :
    asyncQueryPositionalParams "job-1" "romeoandjuliet" 100 successAsyncStub
        3 2 =
      some (Event.submit (some "job-1") positionalSql
          (positionalParamList "romeoandjuliet" 100) true
        :: ((pollTraceOf 2 : List (Event Nat))
            ++ pageTraceOf [[1, 2], [3]]), none) ∧
      (∀ e ∈ (pollTraceOf 2 : List (Event Nat)),
        isCheck e = true ∨ isSleep e = true) ∧
      (∀ e ∈ pageTraceOf [[1, 2], [3]],
        isFetch e = true ∨ isEmit e = true) ∧
      emittedRows (pageTraceOf [[1, 2], [3]]) =
        ([[1, 2], [3]] : List (List Nat)).flatten := by
  have h := C7_async_ordering "job-1" "romeoandjuliet" 100 successAsyncStub
    2 3 2 [[1, 2], [3]] (by decide) (by decide) (by decide)
    (FetchChain.step none [1, 2] 3 1 [[3]] rfl
      (FetchChain.last (some 1) [3] 3 rfl))
    (by decide) (by decide)
  exact h

/-- C8: when the collaborator's token sequence reaches an absent token, the
pagination loop terminates with a finite trace that interleaves one fetch
before each page's rows, in the collaborator's order, and its rows are the
pages' concatenation. -/
theorem C8_pagination_terminates {R T : Type}
    (fetchData : Nat → Option T → List R × Nat × Option T)
    (pages : List (List R)) (fuel : Nat)
    (hchain : FetchChain (fetchData 10) none pages)
    (hf : pages.length ≤ fuel) :
    printResultsT fetchData fuel none = some (pageTraceOf pages) ∧
      emittedRows (pageTraceOf pages) = pages.flatten := by
  exact ⟨printResultsT_chain fetchData none pages hchain fuel hf,
    emittedRows_pageTraceOf pages⟩

/-- Witness for C8: the two-page stub terminates with the two fetch-emit
blocks. -/
theorem C8_witness :
    printResultsT pagesFetch 3 none =
        some (pageTraceOf ([[1, 2], [3]] : List (List Nat))) ∧
      emittedRows (pageTraceOf ([[1, 2], [3]] : List (List Nat))) =
        ([[1, 2], [3]] : List (List Nat)).flatten := by
  have h := C8_pagination_terminates pagesFetch [[1, 2], [3]] 3
    (FetchChain.step none [1, 2] 3 1 [[3]] rfl
      (FetchChain.last (some 1) [3] 3 rfl))
    (by decide)
  exact h

/-- C9: the synchronous script submits the positional-parameter query and
then the named-parameter query, its behaviour does not depend on the first
query's result handle (those rows are never fetched), and only the second
query's pages are paginated and printed. -/
theorem C9_sync_discards_first_query {R T : Type} (corpus : String)
    (minWordCount : Int)
    (fetch1 fetch1' fetch2 : Nat → Option T → List R × Nat × Option T)
    (pages : List (List R)) (pageFuel : Nat)
    (hchain : FetchChain (fetch2 10) none pages)
    (hf : pages.length ≤ pageFuel) :
    syncQueryParams corpus minWordCount ⟨fetch1, fetch2⟩ pageFuel =
        syncQueryParams corpus minWordCount ⟨fetch1', fetch2⟩ pageFuel ∧
      syncQueryParams corpus minWordCount ⟨fetch1, fetch2⟩ pageFuel =
        some (Event.submit none positionalSql
            (positionalParamList corpus minWordCount) true
          :: Event.submit none namedSql
              (namedParamList corpus minWordCount) true
          :: pageTraceOf pages) ∧
      emittedRows (pageTraceOf pages) = pages.flatten := by
  exact ⟨rfl,
    syncQueryParams_trace corpus minWordCount ⟨fetch1, fetch2⟩ pages
      pageFuel hchain hf,
    emittedRows_pageTraceOf pages⟩

/-- Witness for C9: with the scenario stub, swapping the first handle's
fetch function for another changes nothing, and the trace is the two
submissions followed by the second query's page blocks. -/
theorem C9_witness :
    syncQueryParams "romeoandjuliet" 100 ⟨emptyFetch, scenarioFetch⟩ 2 =
        syncQueryParams "romeoandjuliet" 100 ⟨pagesFetch, scenarioFetch⟩
          2 ∧
      syncQueryParams "romeoandjuliet" 100 ⟨emptyFetch, scenarioFetch⟩ 2 =
        some (Event.submit none positionalSql
            (positionalParamList "romeoandjuliet" 100) true
          :: Event.submit none namedSql
              (namedParamList "romeoandjuliet" 100) true
          :: pageTraceOf [[0, 1, 2, 3, 4, 5, 6, 7, 8, 9], [10, 11, 12]]) ∧
      emittedRows
          (pageTraceOf
            ([[0, 1, 2, 3, 4, 5, 6, 7, 8, 9], [10, 11, 12]] :
              List (List Nat))) =
        ([[0, 1, 2, 3, 4, 5, 6, 7, 8, 9], [10, 11, 12]] :
          List (List Nat)).flatten := by
  have h := C9_sync_discards_first_query "romeoandjuliet" 100 emptyFetch
    pagesFetch scenarioFetch [[0, 1, 2, 3, 4, 5, 6, 7, 8, 9], [10, 11, 12]]
    2
    (FetchChain.step none [0, 1, 2, 3, 4, 5, 6, 7, 8, 9] 13 1 [[10, 11, 12]]
      rfl (FetchChain.last (some 1) [10, 11, 12] 13 rfl))
    (by decide)
  exact h

/-- C10: the rows of the final page - the page whose returned token is
absent, including the case where the very first page's token is absent -
are emitted before the pagination loop terminates: the emitted sequence is
the earlier pages' rows followed by the final page's rows. -/
theorem C10_final_page_emitted {R T : Type}
    (fetchData : Nat → Option T → List R × Nat × Option T)
    (earlier : List (List R)) (lastPage : List R) (fuel : Nat)
    (hchain : FetchChain (fetchData 10) none (earlier ++ [lastPage]))
    (hf : earlier.length + 1 ≤ fuel) :
    printResultsT fetchData fuel none =
        some (pageTraceOf (earlier ++ [lastPage])) ∧
      (printResultsT fetchData fuel none).map emittedRows =
        some (earlier.flatten ++ lastPage) := by
  have hlen : (earlier ++ [lastPage]).length ≤ fuel := by simpa using hf
  have heq := printResultsT_chain fetchData none (earlier ++ [lastPage])
    hchain fuel hlen
  refine ⟨heq, ?_⟩
  rw [heq]
  simp [emittedRows_pageTraceOf]

/-- Witness for C10: a single final page with no earlier pages - the first
token already absent - still has its rows emitted. -/
theorem C10_witness :
    printResultsT emptyFetch 1 none =
        some (pageTraceOf (([] : List (List Nat)) ++ [[]])) ∧
      (printResultsT emptyFetch 1 none).map emittedRows =
        some ((([] : List (List Nat)).flatten ++ [])) := by
  have h := C10_final_page_emitted emptyFetch ([] : List (List Nat)) [] 1
    (FetchChain.last none [] 0 rfl) (by decide)
  exact h

end BQSamples
